import Mathlib

/-!
# Verification of virt-manager's distro-installer media logic

Shallow embedding of `src/virtinst/distroinstaller.py` and
`src/debug-nodedev.py`.  External collaborators (the hypervisor
connection, the filesystem, URL fetchers, distro stores, device
validation, OS database lookups) are modelled as explicit parameters:
the connection as a record with its `is_remote` flag, the filesystem as
a pair of predicates (`os.path.exists` / `os.path.isdir`), and each
external call as an oracle describing its outcome (success value or
raised exception).  Python exceptions are modelled with `Except`;
`ValueError` is distinguished from other exception classes because the
code catches it selectively.
-/

set_option maxRecDepth 4000

/-- The hypervisor connection, reduced to the one query the embedded
code performs on it (`conn.is_remote()`). -/
structure Conn where
  is_remote : Bool

/-- The local filesystem as seen through `os.path.exists` and
`os.path.isdir`.  The two predicates are independent fields; real
filesystems satisfy `isdir p → path_exists p`, which theorems assume
explicitly where they need it. -/
structure FS where
  path_exists : String → Bool
  isdir : String → Bool

/-- Python's `str.startswith`, computed on the character lists so the
kernel can evaluate it on literals. -/
def str_startswith (s p : String) : Bool := p.toList.isPrefixOf s.toList

/-- Embedding of `_is_url(conn, url)` (distroinstaller.py lines 21-30):
if the connection is local and the path exists, the answer is
`os.path.isdir(url)`; otherwise the answer is the scheme-prefix check
for http/https/ftp. -/
def _is_url (fs : FS) (conn : Conn) (url : String) : Bool :=
  if !conn.is_remote && fs.path_exists url then
    fs.isdir url
  else
    str_startswith url "http://" || str_startswith url "https://" ||
      str_startswith url "ftp://"

/-! Enum of the various install media types, `range(1, 7)` in the
source. -/

def MEDIA_LOCATION_DIR : Nat := 1
def MEDIA_LOCATION_CDROM : Nat := 2
def MEDIA_LOCATION_URL : Nat := 3
def MEDIA_CDROM_PATH : Nat := 4
def MEDIA_CDROM_URL : Nat := 5
def MEDIA_CDROM_IMPLIED : Nat := 6

/-- The fetcher object as far as the embedded code observes it: the URI
it was built for (`self.location` at construction time, the first
argument of `urlfetcher.fetcherForURI`) and its progress meter, which
`_get_fetcher` rebinds on every call.  The outcomes of its
`prepareLocation` / `cleanupLocation` calls live in the call oracles. -/
structure Fetcher where
  uri : Option String
  meter : Nat
deriving DecidableEq, Repr

/-- The installer state: the fields of `Installer` /`DistroInstaller`
that the embedded methods read or write.  `location` is `Option String`
because Python initialises it to `None`.  A store handle is opaque and
modelled as a number. -/
structure DistroInstaller where
  cdrom : Bool
  location : Option String
  livecd : Bool
  _cached_fetcher : Option Fetcher := none
  _cached_store : Option Nat := none
  _cdrom_path : Option String := none
  _tmpfiles : List String := []
  _tmpvols : List String := []
  extraargs : List String := []
  _install_kernel : Option String := none
  _install_initrd : Option String := none

/-- Python truthiness of `self.location`: `None` and the empty string
are falsy. -/
def truthy : Option String → Bool
  | none => false
  | some s => !(s == "")

/-- The string held in `location`, for use only under `truthy`. -/
def locStr (ins : DistroInstaller) : String := ins.location.getD ""

/-- Embedding of `DistroInstaller._get_media_type` (lines 56-67).  The
Python `self.cdrom and MEDIA_CDROM_URL or MEDIA_LOCATION_URL` idiom is
an if-then-else because both enum values are truthy. -/
def _get_media_type (fs : FS) (conn : Conn) (ins : DistroInstaller) : Nat :=
  if ins.cdrom && !truthy ins.location then
    MEDIA_CDROM_IMPLIED
  else if truthy ins.location && _is_url fs conn (locStr ins) then
    (if ins.cdrom then MEDIA_CDROM_URL else MEDIA_LOCATION_URL)
  else if ins.cdrom then
    MEDIA_CDROM_PATH
  else if truthy ins.location && fs.isdir (locStr ins) then
    MEDIA_LOCATION_DIR
  else
    MEDIA_LOCATION_CDROM

/-- Modelled from the spec: the URL classification as section 4.1 rule 2
words it — "remote connection: any string; local connection:
non-existent path, or scheme prefix http/https/ftp".  Compared against
the source's `_is_url` for claim C2. -/
def spec_is_url (fs : FS) (conn : Conn) (url : String) : Bool :=
  if conn.is_remote then
    true
  else
    !fs.path_exists url || str_startswith url "http://" ||
      str_startswith url "https://" || str_startswith url "ftp://"

/-- Modelled from the spec: the five decision rules of section 4.1 as a
first-match cascade in the spec's order, using the classifier's own URL
predicate (the content of that predicate is claim C2's business).  Rule
4 reads "location is an existing local directory", so it checks both
existence and directory-ness. -/
def mediaTypeByPrecedence (fs : FS) (conn : Conn) (ins : DistroInstaller) : Nat :=
  if ins.cdrom && !truthy ins.location then
    MEDIA_CDROM_IMPLIED
  else if truthy ins.location && _is_url fs conn (locStr ins) && ins.cdrom then
    MEDIA_CDROM_URL
  else if truthy ins.location && _is_url fs conn (locStr ins) then
    MEDIA_LOCATION_URL
  else if ins.cdrom then
    MEDIA_CDROM_PATH
  else if truthy ins.location && fs.path_exists (locStr ins) &&
      fs.isdir (locStr ins) then
    MEDIA_LOCATION_DIR
  else
    MEDIA_LOCATION_CDROM

/-- Embedding of `DistroInstaller._get_bootdev` (lines 123-135);
`mediatype in [...]` becomes the disjunction of `==` tests. -/
def _get_bootdev (fs : FS) (conn : Conn) (ins : DistroInstaller)
    (isinstall : Bool) : String :=
  let mediatype := _get_media_type fs conn ins
  let is_local := mediatype == MEDIA_CDROM_PATH || mediatype == MEDIA_CDROM_IMPLIED ||
    mediatype == MEDIA_LOCATION_DIR || mediatype == MEDIA_LOCATION_CDROM
  let persistent_cd := is_local && ins.cdrom && ins.livecd
  if isinstall || persistent_cd then "cdrom" else "hd"

/-- Embedding of `DistroInstaller.needs_cdrom` (lines 211-214). -/
def needs_cdrom (fs : FS) (conn : Conn) (ins : DistroInstaller) : Bool :=
  let mediatype := _get_media_type fs conn ins
  mediatype == MEDIA_CDROM_PATH || mediatype == MEDIA_LOCATION_CDROM ||
    mediatype == MEDIA_CDROM_URL

/-- Embedding of `DistroInstaller.scratchdir_required` (lines 219-222). -/
def scratchdir_required (fs : FS) (conn : Conn) (ins : DistroInstaller) : Bool :=
  let mediatype := _get_media_type fs conn ins
  mediatype == MEDIA_CDROM_URL || mediatype == MEDIA_LOCATION_URL ||
    mediatype == MEDIA_LOCATION_DIR || mediatype == MEDIA_LOCATION_CDROM

/-! Concrete fixtures used by witnesses and counterexamples. -/

/-- A filesystem where no path exists. -/
def fsNone : FS := ⟨fun _ => false, fun _ => false⟩

/-- A filesystem where every path is an existing directory. -/
def fsDirAll : FS := ⟨fun _ => true, fun _ => true⟩

def connLocal : Conn := ⟨false⟩

def connRemote : Conn := ⟨true⟩

/-- Installer pointed at a plain directory path, cdrom flag off. -/
def insTree : DistroInstaller :=
  { cdrom := false, location := some "/var/tree", livecd := false }

/-- Installer pointed at a device path with the cdrom flag on and
livecd off. -/
def insCdromPath : DistroInstaller :=
  { cdrom := true, location := some "/dev/sr0", livecd := false }

/-! ## Exceptions, validation and the orchestration machinery -/

/-- Python exceptions, with `ValueError` distinguished from every other
exception class because the code catches it selectively. -/
inductive PyErr
  | valueError (msg : String)
  | other (msg : String)
deriving DecidableEq, Repr

def str_contains_aux (needle : List Char) : List Char → Bool
  | [] => needle.isEmpty
  | c :: t => needle.isPrefixOf (c :: t) || str_contains_aux needle t

/-- Python's `needle in hay` on strings, computed over the character lists. -/
def str_contains (hay needle : String) : Bool :=
  str_contains_aux needle.toList hay.toList

/-- Embedding of `util.ensure_meter`: a `None` meter is replaced by a
real (quiet) meter object. -/
def ensure_meter : Option Nat → Nat
  | none => 0
  | some m => m

/-- Embedding of `DistroInstaller._get_fetcher` (lines 69-79): build and
cache a fetcher for `self.location` on first access, rebind its meter on
every access, and return it together with the updated installer. -/
def _get_fetcher (ins : DistroInstaller) (meter : Option Nat) :
    Fetcher × DistroInstaller :=
  let m := ensure_meter meter
  let f : Fetcher :=
    match ins._cached_fetcher with
    | none => { uri := ins.location, meter := m }
    | some f => f
  let f := { f with meter := m }
  (f, { ins with _cached_fetcher := some f })

/-- The NFS warning text logged (not raised) by `_validate_location`
(lines 163-166). -/
def nfs_warning : String :=
  "NFS URL installs are no longer supported. Access your install media over an alternate transport like HTTP, or manually mount the NFS share and install from the local directory mount point."

/-- Embedding of `DistroInstaller._validate_location` (lines 137-171).
`devValidate` is the oracle for the transient `DeviceDisk` cdrom-device
construction and validation: `.ok path` is the canonicalised
`dev.path`, `.error e` a raised exception rendered as `str(e)` (the
code catches every exception class there).  The result is the new
installer state, the warning messages logged, and either the validated
value or the raised `ValueError`. -/
def _validate_location (fs : FS) (conn : Conn)
    (devValidate : String → Except String String)
    (ins : DistroInstaller) (val : String) :
    DistroInstaller × List String × Except PyErr String :=
  let ins := { ins with _cached_store := none, _cached_fetcher := none }
  if _is_url fs conn val then
    (ins, [], .ok val)
  else
    match devValidate val with
    | .ok path => (ins, [], .ok path)
    | .error e =>
      let warns := if str_startswith val "nfs:" then [nfs_warning] else []
      (ins, warns,
        .error (.valueError
          ("Validating install media '" ++ val ++ "' failed: " ++ e)))

/-- Events recording each call to an external collaborator. -/
inductive Ev
  | prepareLocation
  | cleanupLocation
  | getDistroStore
  | acquireBootISO
  | acquireKernel
  | initrdInjections
  | uploadKernelInitrd
  | lookupOsByMedia
  | getOsdictInfo
deriving DecidableEq, Repr

/-- Machine state threaded through the orchestration methods: the
installer object plus the trace of external calls made so far. -/
structure St where
  ins : DistroInstaller
  trace : List Ev

/-- A fresh run on a given installer: empty trace. -/
def St.init (ins : DistroInstaller) : St := ⟨ins, []⟩

/-- A Python computation: state in, state out, normal value or raised
exception. -/
def M (α : Type) : Type := St → St × Except PyErr α

def mPure {α : Type} (a : α) : M α := fun s => (s, .ok a)

def mRaise {α : Type} (e : PyErr) : M α := fun s => (s, .error e)

def mBind {α β : Type} (x : M α) (f : α → M β) : M β := fun s =>
  match x s with
  | (s1, .ok a) => f a s1
  | (s1, .error e) => (s1, .error e)

/-- An external call: record the event, then succeed or raise as the
oracle dictates. -/
def extCall {α : Type} (ev : Ev) (r : Except PyErr α) : M α := fun s =>
  ({ s with trace := s.trace ++ [ev] }, r)

/-- Embedding of `try: body finally: fin` — `fin` always runs; an exception raised
by `fin` replaces the pending outcome, as in Python. -/
def tryFinallyM {α : Type} (body : M α) (fin : M Unit) : M α := fun s =>
  let r := body s
  match fin r.1 with
  | (s2, .ok _) => (s2, r.2)
  | (s2, .error e) => (s2, .error e)

/-- Embedding of `try: body except ValueError as e: handler e` — only `ValueError`
is caught; other exception classes propagate. -/
def tryCatchVE {α : Type} (body : M α) (handler : String → M α) : M α := fun s =>
  match body s with
  | (s1, .error (.valueError m)) => handler m s1
  | r => r

/-- Outcomes of the external collaborator calls, fixed per run.  Store
handles are opaque numbers. -/
structure Env where
  prepareLocation : Except PyErr Unit
  cleanupLocation : Except PyErr Unit
  getDistroStore : Except PyErr Nat
  acquireBootISO : Nat → Except PyErr String
  acquireKernel : Nat → Except PyErr (String × Option String × Option String)
  initrdInjections : Except PyErr Unit
  uploadKernelInitrd : Except PyErr (String × Option String × List String)
  lookupOsByMedia : String → Except PyErr (Option String)
  getOsdictInfo : Nat → Except PyErr (Option String)

/-- The call `self._get_fetcher(...)` inside an orchestration method; fetcher
construction itself is modelled as non-failing. -/
def getFetcherM (meter : Option Nat) : M Fetcher := fun s =>
  match _get_fetcher s.ins meter with
  | (f, ins) => ({ s with ins := ins }, .ok f)

/-- Embedding of `DistroInstaller._get_store` (lines 81-85): built from
the external `urldetect.getDistroStore` on first access, then cached. -/
def _get_store (env : Env) : M Nat := fun s =>
  match s.ins._cached_store with
  | some st => (s, .ok st)
  | none =>
    match extCall Ev.getDistroStore env.getDistroStore s with
    | (s1, .ok st) =>
      ({ s1 with ins := { s1.ins with _cached_store := some st } }, .ok st)
    | (s1, .error e) => (s1, .error e)

def appendTmpfile (f : String) : M Unit := fun s =>
  ({ s with ins := { s.ins with _tmpfiles := s.ins._tmpfiles ++ [f] } }, .ok ())

def addTmpvols (vs : List String) : M Unit := fun s =>
  ({ s with ins := { s.ins with _tmpvols := s.ins._tmpvols ++ vs } }, .ok ())

def setInstallKernelInitrd (k : String) (i : Option String) : M Unit := fun s =>
  ({ s with ins :=
    { s.ins with _install_kernel := some k, _install_initrd := i } }, .ok ())

def appendExtraarg (a : String) : M Unit := fun s =>
  ({ s with ins := { s.ins with extraargs := s.ins.extraargs ++ [a] } }, .ok ())

def setCdromPath (p : Option String) : M Unit := fun s =>
  ({ s with ins := { s.ins with _cdrom_path := p } }, .ok ())

/-- Embedding of `DistroInstaller._prepare_cdrom_url` (lines 90-94). -/
def _prepare_cdrom_url (env : Env) : M String :=
  mBind (_get_store env) fun store =>
  mBind (extCall Ev.acquireBootISO (env.acquireBootISO store)) fun media =>
  mBind (appendTmpfile media) fun _ =>
  mPure media

/-- Embedding of `DistroInstaller._prepare_kernel_url` (lines 96-116):
acquire kernel/initrd/args from the store, record temporary files, run
the initrd injections, upload kernel and initrd, record the produced
volumes and boot artifacts, and append any extra args. -/
def _prepare_kernel_url (env : Env) : M Unit :=
  mBind (_get_store env) fun store =>
  mBind (extCall Ev.acquireKernel (env.acquireKernel store)) fun kia =>
  mBind (appendTmpfile kia.1) fun _ =>
  mBind (match kia.2.1 with
         | some initrd => appendTmpfile initrd
         | none => mPure ()) fun _ =>
  mBind (extCall Ev.initrdInjections env.initrdInjections) fun _ =>
  mBind (extCall Ev.uploadKernelInitrd env.uploadKernelInitrd) fun kit =>
  mBind (addTmpvols kit.2.2) fun _ =>
  mBind (setInstallKernelInitrd kit.1 kit.2.1) fun _ =>
  (match kia.2.2 with
   | some args => appendExtraarg args
   | none => mPure ())

/-- Embedding of `DistroInstaller._prepare` (lines 173-200): a no-op
for implied cdrom media; else resolve a direct cdrom path for
cdrom-path/location-cdrom media, and for everything but cdrom-path run
the fetcher under `try/finally` — `prepareLocation`'s `ValueError` is
re-wrapped with an "Invalid install location: " prefix, and
`cleanupLocation` runs on every exit path.  Only then is the
`_cdrom_path` field assigned. -/
def _prepare (fs : FS) (conn : Conn) (env : Env) (meter : Option Nat) :
    M Unit := fun s =>
  let mediatype := _get_media_type fs conn s.ins
  if mediatype = MEDIA_CDROM_IMPLIED then (s, .ok ())
  else
    let cdrom_path : Option String :=
      if mediatype = MEDIA_CDROM_PATH ∨ mediatype = MEDIA_LOCATION_CDROM then
        s.ins.location
      else none
    (mBind
      (if mediatype ≠ MEDIA_CDROM_PATH then
        mBind (getFetcherM meter) fun _fetcher =>
        tryFinallyM
          (mBind
            (tryCatchVE (extCall Ev.prepareLocation env.prepareLocation)
              (fun e => mRaise (.valueError ("Invalid install location: " ++ e))))
            fun _ =>
            if mediatype = MEDIA_CDROM_URL then
              mBind (_prepare_cdrom_url env) fun media => mPure (some media)
            else
              mBind (_prepare_kernel_url env) fun _ => mPure cdrom_path)
          (extCall Ev.cleanupLocation env.cleanupLocation)
      else mPure cdrom_path)
      fun cp => setCdromPath cp) s

/-- Embedding of `DistroInstaller.check_location` (lines 224-237): only
URL-backed media are checked; the fetch-prepare plus store detection
run under `try/finally`, and `True` is returned when nothing raised. -/
def check_location (fs : FS) (conn : Conn) (env : Env) : M Bool := fun s =>
  let mediatype := _get_media_type fs conn s.ins
  if ¬(mediatype = MEDIA_CDROM_URL ∨ mediatype = MEDIA_LOCATION_URL) then
    (s, .ok true)
  else
    (mBind
      (tryFinallyM
        (mBind (getFetcherM none) fun _f =>
         mBind (extCall Ev.prepareLocation env.prepareLocation) fun _ =>
         mBind (_get_store env) fun _ => mPure ())
        (extCall Ev.cleanupLocation env.cleanupLocation))
      fun _ => mPure true) s

/-- Embedding of `DistroInstaller.detect_distro` (lines 239-260).  The
local variable `distro` survives the inner try/finally, so a cleanup
failure after a successful `store.get_osdict_info()` leaves the
detected value in place; the outer `except Exception` swallows the
escaping error and the function still returns that value.  A `location`
of `None` makes `_is_url` raise (`os.path.exists(None)`), which the
outer handler also swallows, leaving `distro` at `None`. -/
def detect_distro (fs : FS) (conn : Conn) (env : Env) :
    M (Option String) := fun s =>
  match s.ins.location with
  | none => (s, .ok none)
  | some loc =>
    if _is_url fs conn loc then
      let r := (mBind (getFetcherM none) fun _f =>
                mBind (extCall Ev.prepareLocation env.prepareLocation) fun _ =>
                mBind (_get_store env) fun store =>
                extCall Ev.getOsdictInfo (env.getOsdictInfo store)) s
      let distro : Option String :=
        match r.2 with
        | .ok v => v
        | .error _ => none
      let r2 := extCall Ev.cleanupLocation env.cleanupLocation r.1
      (r2.1, .ok distro)
    else if conn.is_remote then
      (s, .ok none)
    else
      match extCall Ev.lookupOsByMedia (env.lookupOsByMedia loc) s with
      | (s1, .ok v) => (s1, .ok v)
      | (s1, .error _) => (s1, .ok none)

/-! ## The probe utility (debug-nodedev.py) -/

def ok_line (hostdev nodedevName : String) : String :=
  "OK   - hostdev " ++ hostdev ++ " maps to " ++ nodedevName

def fail_line (hostdev err : String) : String :=
  "FAIL - failed to query hostdev " ++ hostdev ++ " - " ++ err

/-- Embedding of `debugnodedev` (debug-nodedev.py lines 10-19):
`lookup` is the oracle for `NodeDevice.lookupNodedevFromString`, with
`.ok` carrying the resolved device name.  Returns the printed lines and
whether the run completed or aborted with a propagating exception. -/
def debugnodedev (lookup : String → Except PyErr String) :
    List String → List String × Except PyErr Unit
  | [] => ([], .ok ())
  | h :: t =>
    match lookup h with
    | .ok nodedevName =>
      let r := debugnodedev lookup t
      (ok_line h nodedevName :: r.1, r.2)
    | .error (.valueError e) =>
      let r := debugnodedev lookup t
      (fail_line h e :: r.1, r.2)
    | .error (.other e) => ([], .error (.other e))

/-- True when the outcome is an exception of a class other than
`ValueError`. -/
def isOtherErr {α : Type} : Except PyErr α → Bool
  | .error (.other _) => true
  | _ => false

/-- The line the probe prints for an item whose lookup returns or
raises `ValueError` (the last arm is unreachable under the theorems'
hypotheses). -/
def probe_line (lookup : String → Except PyErr String) (h : String) : String :=
  match lookup h with
  | .ok nodedevName => ok_line h nodedevName
  | .error (.valueError e) => fail_line h e
  | .error (.other e) => fail_line h e

/-! ## Trace properties -/

def hasCleanup : List Ev → Bool
  | [] => false
  | Ev.cleanupLocation :: _ => true
  | _ :: t => hasCleanup t

/-- Every `prepareLocation` event is followed, strictly later in the
trace, by a `cleanupLocation` event. -/
def cleanupAfterPrepare : List Ev → Bool
  | [] => true
  | Ev.prepareLocation :: t => hasCleanup t && cleanupAfterPrepare t
  | _ :: t => cleanupAfterPrepare t

/-! ## Fixtures for the orchestration claims -/

/-- Device validation oracle that always fails with message "failure". -/
def devFail : String → Except String String := fun _ => .error "failure"

/-- Installer pointed at an http install tree. -/
def insUrl : DistroInstaller :=
  { cdrom := false, location := some "http://host/tree", livecd := false }

/-- Installer pointed at a device path, all flags off. -/
def insPlain : DistroInstaller :=
  { cdrom := false, location := some "/dev/sr0", livecd := false }

/-- Lookup oracle for the probe: "bogus" raises ValueError, everything
else resolves to itself. -/
def probeLookup : String → Except PyErr String := fun h =>
  match h with
  | "bogus" => .error (.valueError "Unknown hostdev address string")
  | x => .ok x

/-- Oracle where every step succeeds and detection finds "fedora29",
but the final `cleanupLocation` raises. -/
def envCleanupFails : Env :=
  { prepareLocation := .ok ()
    cleanupLocation := .error (.other "umount failed")
    getDistroStore := .ok 0
    acquireBootISO := fun _ => .ok "/tmp/boot.iso"
    acquireKernel := fun _ => .ok ("/tmp/kernel", some "/tmp/initrd", none)
    initrdInjections := .ok ()
    uploadKernelInitrd := .ok ("/pool/kernel", some "/pool/initrd", [])
    lookupOsByMedia := fun _ => .ok none
    getOsdictInfo := fun _ => .ok (some "fedora29") }

/-! ## Theorems -/

/-- C1: the media classifier is total over the six media types, computes
the same answer as the first-match precedence cascade of spec section
4.1 (on any filesystem where directories exist), and in particular
returns the directory media type when no earlier rule matches and the
location is an existing local directory. -/
theorem c1_media_type_total_and_precedence :
    (∀ fs conn ins,
      _get_media_type fs conn ins ∈
        [MEDIA_LOCATION_DIR, MEDIA_LOCATION_CDROM, MEDIA_LOCATION_URL,
         MEDIA_CDROM_PATH, MEDIA_CDROM_URL, MEDIA_CDROM_IMPLIED]) ∧
    (∀ fs conn ins, (∀ p, fs.isdir p = true → fs.path_exists p = true) →
      _get_media_type fs conn ins = mediaTypeByPrecedence fs conn ins) ∧
    (∀ fs conn ins l, ins.location = some l → l ≠ "" → ins.cdrom = false →
      _is_url fs conn l = false → fs.path_exists l = true → fs.isdir l = true →
      _get_media_type fs conn ins = MEDIA_LOCATION_DIR) := by
  refine ⟨?_, ?_, ?_⟩
  · intro fs conn ins
    unfold _get_media_type
    split_ifs <;>
      simp [MEDIA_LOCATION_DIR, MEDIA_LOCATION_CDROM, MEDIA_LOCATION_URL,
        MEDIA_CDROM_PATH, MEDIA_CDROM_URL, MEDIA_CDROM_IMPLIED]
  · intro fs conn ins hwf
    unfold _get_media_type mediaTypeByPrecedence
    cases hc : ins.cdrom <;> cases ht : truthy ins.location <;>
      cases hu : _is_url fs conn (locStr ins) <;>
      cases hd : fs.isdir (locStr ins) <;>
      simp [hc, ht, hu, hd, hwf]
  · intro fs conn ins l hl hne hc hu he hd
    have ht : truthy ins.location = true := by simp [truthy, hl, hne]
    have hls : locStr ins = l := by simp [locStr, hl]
    unfold _get_media_type
    simp [hc, ht, hls, hu, hd]

/-- Witness for C1: a remote connection pointed at a plain directory
path with the cdrom flag off lands in rule 4 and yields the directory
media type. -/
theorem c1_witness :
    _get_media_type fsDirAll connRemote insTree = MEDIA_LOCATION_DIR :=
  c1_media_type_total_and_precedence.2.2 fsDirAll connRemote insTree "/var/tree"
    rfl (by decide) rfl (by decide) rfl rfl

/-- C2 counterexample: the spec's URL rule classifies every string on a
remote connection as a URL, but the code only accepts the three scheme
prefixes there: a plain path on a remote connection is not a URL in the
code. -/
theorem c2_counterexample :
    spec_is_url fsNone connRemote "/media/dir" = true ∧
    _is_url fsNone connRemote "/media/dir" = false := by
  exact ⟨by decide, by decide⟩

/-- C2 (amended): whenever the local-existence shortcut does not apply
(remote connection, or a local path that does not exist), a location is
classified as a URL exactly when it starts with `http://`, `https://`
or `ftp://`; on a local connection at an existing path it is classified
as a URL exactly when the path is a directory. -/
theorem c2_url_predicate_amended :
    ∀ fs conn url,
      ((conn.is_remote = true ∨ fs.path_exists url = false) →
        _is_url fs conn url =
          (str_startswith url "http://" || str_startswith url "https://" ||
            str_startswith url "ftp://")) ∧
      (conn.is_remote = false → fs.path_exists url = true →
        _is_url fs conn url = fs.isdir url) := by
  intro fs conn url
  constructor
  · intro h
    unfold _is_url
    rcases h with hr | he
    · simp [hr]
    · simp [he]
  · intro hr he
    unfold _is_url
    simp [hr, he]

/-- Witness for C2 (amended): an ftp URL on a local connection where the
path does not exist is URL-classified. -/
theorem c2_witness :
    _is_url fsNone connLocal "ftp://mirror/tree" = true :=
  ((c2_url_predicate_amended fsNone connLocal "ftp://mirror/tree").1
    (Or.inr rfl)).trans (by decide)

/-- C3: on a local connection an existing directory is URL-classified,
so the classifier yields cdrom-URL (cdrom flag on) or location-URL for
it; and conversely the directory media type forces a remote connection,
a directory on the local filesystem, and no http/https/ftp scheme
prefix. -/
theorem c3_location_dir_remote_only :
    (∀ fs conn ins l, conn.is_remote = false → ins.location = some l → l ≠ "" →
      fs.path_exists l = true → fs.isdir l = true →
      _is_url fs conn l = true ∧
      _get_media_type fs conn ins =
        (if ins.cdrom then MEDIA_CDROM_URL else MEDIA_LOCATION_URL)) ∧
    (∀ fs conn ins, (∀ p, fs.isdir p = true → fs.path_exists p = true) →
      _get_media_type fs conn ins = MEDIA_LOCATION_DIR →
      conn.is_remote = true ∧ fs.isdir (locStr ins) = true ∧
      str_startswith (locStr ins) "http://" = false ∧
      str_startswith (locStr ins) "https://" = false ∧
      str_startswith (locStr ins) "ftp://" = false) := by
  constructor
  · intro fs conn ins l hr hl hne he hd
    have hu : _is_url fs conn l = true := by
      unfold _is_url; simp [hr, he, hd]
    refine ⟨hu, ?_⟩
    have ht : truthy ins.location = true := by simp [truthy, hl, hne]
    have hls : locStr ins = l := by simp [locStr, hl]
    unfold _get_media_type
    simp [ht, hls, hu]
  · intro fs conn ins hwf h
    unfold _get_media_type at h
    split_ifs at h with h1 h2 h2c h3 h4
    · exact absurd h (by decide)
    · exact absurd h (by decide)
    · exact absurd h (by decide)
    · exact absurd h (by decide)
    · obtain ⟨ht, hd⟩ : truthy ins.location = true ∧ fs.isdir (locStr ins) = true := by
        simpa using h4
      have hrem : conn.is_remote = true := by
        cases hcrv : conn.is_remote
        · exfalso
          have he : fs.path_exists (locStr ins) = true := hwf _ hd
          have hu : _is_url fs conn (locStr ins) = true := by
            unfold _is_url; simp [hcrv, he, hd]
          exact h2 (by simp [ht, hu])
        · rfl
      have hu : _is_url fs conn (locStr ins) = false := by
        cases huv : _is_url fs conn (locStr ins)
        · rfl
        · exact absurd (by simp [ht, huv]) h2
      unfold _is_url at hu
      rw [hrem] at hu
      simp at hu
      exact ⟨hrem, hd, hu.1.1, hu.1.2, hu.2⟩
    · exact absurd h (by decide)

/-- Witness for C3: on a local connection an existing directory path is
URL-classified and the classifier returns location-URL. -/
theorem c3_witness :
    _is_url fsDirAll connLocal "/var/tree" = true ∧
    _get_media_type fsDirAll connLocal insTree = MEDIA_LOCATION_URL := by
  have h := c3_location_dir_remote_only.1 fsDirAll connLocal insTree "/var/tree"
    rfl rfl (by decide) rfl rfl
  exact ⟨h.1, by simpa [insTree] using h.2⟩

/-- C8: `_get_bootdev` returns "cdrom" whenever `isinstall` is true;
with `isinstall` false it returns "cdrom" exactly when the media type is
local (non-URL), the cdrom flag is set and livecd is true, and returns
"hd" whenever livecd is false. -/
theorem c8_get_bootdev :
    ∀ fs conn ins,
      _get_bootdev fs conn ins true = "cdrom" ∧
      (_get_bootdev fs conn ins false = "cdrom" ↔
        ((_get_media_type fs conn ins = MEDIA_CDROM_PATH ∨
          _get_media_type fs conn ins = MEDIA_CDROM_IMPLIED ∨
          _get_media_type fs conn ins = MEDIA_LOCATION_DIR ∨
          _get_media_type fs conn ins = MEDIA_LOCATION_CDROM) ∧
         ins.cdrom = true ∧ ins.livecd = true)) ∧
      (ins.livecd = false → _get_bootdev fs conn ins false = "hd") := by
  intro fs conn ins
  unfold _get_bootdev
  refine ⟨by simp, ?_, ?_⟩
  · have key : ∀ b : Bool, ((if b then "cdrom" else "hd") : String) = "cdrom" ↔ b = true := by
      intro b; cases b <;> simp
    simp only [Bool.false_or, if_true, if_false]
    rw [key]
    simp [Bool.and_eq_true, Bool.or_eq_true, beq_iff_eq, or_assoc, and_assoc]
  · intro h
    simp [h]

/-- Witness for C8: a local cdrom-path configuration with livecd off
boots from "hd" when not installing. -/
theorem c8_witness :
    _get_bootdev fsNone connLocal insCdromPath false = "hd" :=
  (c8_get_bootdev fsNone connLocal insCdromPath).2.2 rfl

/-- C9: `needs_cdrom` is true exactly when the media type is cdrom-path,
location-cdrom or cdrom-URL. -/
theorem c9_needs_cdrom_iff :
    ∀ fs conn ins,
      needs_cdrom fs conn ins = true ↔
        (_get_media_type fs conn ins = MEDIA_CDROM_PATH ∨
         _get_media_type fs conn ins = MEDIA_LOCATION_CDROM ∨
         _get_media_type fs conn ins = MEDIA_CDROM_URL) := by
  intro fs conn ins
  unfold needs_cdrom
  simp [Bool.or_eq_true, beq_iff_eq, or_assoc]

/-- C5: `_validate_location` discards both cached handles before doing
anything else — also on calls that fail — and a subsequent access with
an empty cache constructs a fresh fetcher from the current location,
respectively calls out to the external store detector. -/
theorem c5_validate_location_resets_caches :
    (∀ fs conn devValidate ins val,
      (_validate_location fs conn devValidate ins val).1._cached_fetcher = none ∧
      (_validate_location fs conn devValidate ins val).1._cached_store = none) ∧
    (∀ ins meter, ins._cached_fetcher = none →
      (_get_fetcher ins meter).1 =
        { uri := ins.location, meter := ensure_meter meter }) ∧
    (∀ env s, s.ins._cached_store = none →
      (_get_store env s).2 = env.getDistroStore ∧
      (_get_store env s).1.trace = s.trace ++ [Ev.getDistroStore]) := by
  refine ⟨?_, ?_, ?_⟩
  · intro fs conn devValidate ins val
    unfold _validate_location
    cases h : _is_url fs conn val
    · cases hv : devValidate val <;> simp [h, hv]
    · simp [h]
  · intro ins meter h
    unfold _get_fetcher
    simp [h]
  · intro env s h
    unfold _get_store extCall
    cases hg : env.getDistroStore <;> simp [h, hg]

/-- Witness for C5: a fresh installer has no cached fetcher, and the
first access builds one from the current location with the quiet
meter. -/
theorem c5_witness :
    (_get_fetcher insTree none).1 = { uri := some "/var/tree", meter := 0 } :=
  c5_validate_location_resets_caches.2.1 insTree none rfl

/-- C6 counterexample: for location "nfs:server/path" failing device
validation, the raised ValueError's message is the generic wrapper; it
does not mention that NFS is unsupported (it does not even contain the
word "supported"). -/
theorem c6_counterexample :
    (_validate_location fsNone connLocal devFail insTree "nfs:server/path").2.2 =
      .error (.valueError
        "Validating install media 'nfs:server/path' failed: failure") ∧
    str_contains
      "Validating install media 'nfs:server/path' failed: failure"
      "supported" = false := by
  exact ⟨by rfl, by decide⟩

/-- C6 (amended): for an `nfs:`-prefixed location that is not
URL-classified and whose device validation fails, `_validate_location`
raises a ValueError whose message embeds the location and the
underlying cause, and separately logs a non-fatal warning that mentions
NFS is no longer supported; the NFS text goes to the warning log, not
into the raised error. -/
theorem c6_nfs_warning_amended :
    ∀ fs conn devValidate ins val e,
      str_startswith val "nfs:" = true →
      _is_url fs conn val = false →
      devValidate val = .error e →
      (_validate_location fs conn devValidate ins val).2.1 = [nfs_warning] ∧
      (_validate_location fs conn devValidate ins val).2.2 =
        .error (.valueError
          ("Validating install media '" ++ val ++ "' failed: " ++ e)) ∧
      str_contains nfs_warning "no longer supported" = true := by
  intro fs conn devValidate ins val e hn hu hv
  refine ⟨?_, ?_, by decide⟩ <;> unfold _validate_location <;> simp [hn, hu, hv]

/-- Witness for C6 (amended): the concrete failing nfs location logs
exactly the NFS warning. -/
theorem c6_witness :
    (_validate_location fsNone connLocal devFail insTree "nfs:server/path").2.1 =
      [nfs_warning] :=
  (c6_nfs_warning_amended fsNone connLocal devFail insTree "nfs:server/path"
    "failure" (by decide) (by decide) rfl).1

/-- The method `_get_fetcher` touches only the cached-fetcher field. -/
theorem get_fetcher_preserves_store (ins : DistroInstaller) (meter : Option Nat) :
    (_get_fetcher ins meter).2._cached_store = ins._cached_store := by
  unfold _get_fetcher
  cases h : ins._cached_fetcher <;> simp [h]

/-- C10: the probe processes items independently: when no lookup raises
an exception other than ValueError, the run completes with exactly one
OK/FAIL line per item (n items, n lines, in order); and the run
completes without aborting exactly when no lookup raises a
non-ValueError exception. -/
theorem c10_probe_batch :
    ∀ lookup hostdevs,
      ((∀ h ∈ hostdevs, isOtherErr (lookup h) = false) →
        debugnodedev lookup hostdevs =
          (hostdevs.map (probe_line lookup), .ok ())) ∧
      ((debugnodedev lookup hostdevs).2 = .ok () ↔
        ∀ h ∈ hostdevs, isOtherErr (lookup h) = false) := by
  intro lookup hostdevs
  induction hostdevs with
  | nil => simp [debugnodedev]
  | cons h t ih =>
    constructor
    · intro hall
      have hh := hall h (List.mem_cons_self h t)
      have hrest := ih.1 fun x hx => hall x (List.mem_cons_of_mem _ hx)
      unfold debugnodedev
      cases hl : lookup h with
      | ok nm => simp [hl, hrest, probe_line]
      | error e =>
        cases e with
        | valueError m => simp [hl, hrest, probe_line]
        | other m => simp [isOtherErr, hl] at hh
    · unfold debugnodedev
      cases hl : lookup h with
      | ok nm => simp [hl, isOtherErr, ih.2, List.forall_mem_cons]
      | error e =>
        cases e with
        | valueError m => simp [hl, isOtherErr, ih.2, List.forall_mem_cons]
        | other m => simp [hl, isOtherErr, List.forall_mem_cons]

/-- Witness for C10: three hostdevs with the second raising ValueError
give three independent lines, FAIL in the middle, and a completed
run. -/
theorem c10_witness :
    debugnodedev probeLookup ["pci_0000_00_02_0", "bogus", "usb_device_1d6b_2"] =
      (["OK   - hostdev pci_0000_00_02_0 maps to pci_0000_00_02_0",
        "FAIL - failed to query hostdev bogus - Unknown hostdev address string",
        "OK   - hostdev usb_device_1d6b_2 maps to usb_device_1d6b_2"],
       .ok ()) := by
  have h := (c10_probe_batch probeLookup
    ["pci_0000_00_02_0", "bogus", "usb_device_1d6b_2"]).1 (by decide)
  rw [h]
  rfl

/-- C7 counterexample: in a run where detection succeeds (the store
reports "fedora29") and only the final `cleanupLocation` raises, an
error is raised during detection yet `detect_distro` swallows it and
returns the detected identifier — not none. -/
theorem c7_counterexample :
    (detect_distro fsNone connLocal envCleanupFails (St.init insUrl)).2 =
      .ok (some "fedora29") ∧
    envCleanupFails.cleanupLocation = .error (.other "umount failed") := by
  exact ⟨by rfl, by rfl⟩

/-- C7 (amended): `detect_distro` always returns normally with an
optional identifier; a `None` location, or a remote connection whose
media is not URL-classified, yields none without attempting detection;
a fetch/store error raised before a value was detected yields none; and
an error raised by the cleanup step after successful detection is
swallowed with the already-detected identifier returned. -/
theorem c7_detect_distro_amended :
    (∀ fs conn env s, ∃ v, (detect_distro fs conn env s).2 = .ok v) ∧
    (∀ fs conn env ins loc, ins.location = some loc →
      _is_url fs conn loc = false → conn.is_remote = true →
      detect_distro fs conn env (St.init ins) = (St.init ins, .ok none)) ∧
    (∀ fs conn env ins, ins.location = none →
      detect_distro fs conn env (St.init ins) = (St.init ins, .ok none)) ∧
    (∀ fs conn env s loc e, s.ins.location = some loc →
      _is_url fs conn loc = true → env.prepareLocation = .error e →
      (detect_distro fs conn env s).2 = .ok none) ∧
    (∀ fs conn env s loc st v, s.ins.location = some loc →
      _is_url fs conn loc = true → env.prepareLocation = .ok () →
      s.ins._cached_store = none → env.getDistroStore = .ok st →
      env.getOsdictInfo st = .ok v →
      (detect_distro fs conn env s).2 = .ok v) := by
  refine ⟨?_, ?_, ?_, ?_, ?_⟩
  · intro fs conn env s
    unfold detect_distro
    rcases hl : s.ins.location with _ | loc
    · exact ⟨none, rfl⟩
    · cases hu : _is_url fs conn loc
      · cases hr : conn.is_remote
        · cases he : env.lookupOsByMedia loc <;> simp [hu, hr, extCall, he]
        · simp [hu, hr]
      · simp only [hu, if_true]
        exact ⟨_, rfl⟩
  · intro fs conn env ins loc hl hu hr
    unfold detect_distro
    simp [St.init, hl, hu, hr]
  · intro fs conn env ins hl
    unfold detect_distro
    simp [St.init, hl]
  · intro fs conn env s loc e hl hu hp
    unfold detect_distro
    rcases hgf : _get_fetcher s.ins none with ⟨f, insF⟩
    simp [hl, hu, mBind, getFetcherM, extCall, hgf, hp]
  · intro fs conn env s loc st v hl hu hp hc hg hi
    unfold detect_distro
    rcases hgf : _get_fetcher s.ins none with ⟨f, insF⟩
    have hstore : insF._cached_store = none := by
      have h := get_fetcher_preserves_store s.ins none
      rw [hgf] at h
      rw [h, hc]
    unfold _get_store
    simp [hl, hu, mBind, getFetcherM, extCall, hgf, hp, hstore, hg, hi]

/-- Witness for C7 (amended): a remote connection with a plain device
path skips detection and returns none. -/
theorem c7_witness :
    detect_distro fsNone connRemote envCleanupFails (St.init insPlain) =
      (St.init insPlain, .ok none) :=
  c7_detect_distro_amended.2.1 fsNone connRemote envCleanupFails insPlain
    "/dev/sr0" rfl (by decide) rfl

theorem hasCleanup_append_cleanup (t : List Ev) :
    hasCleanup (t ++ [Ev.cleanupLocation]) = true := by
  induction t with
  | nil => rfl
  | cons e t ih => cases e <;> simp [hasCleanup, ih]

/-- A trace that ends in a `cleanupLocation` event satisfies the
pairing property whatever came before. -/
theorem cleanupAfterPrepare_append_cleanup (t : List Ev) :
    cleanupAfterPrepare (t ++ [Ev.cleanupLocation]) = true := by
  induction t with
  | nil => rfl
  | cons e t ih =>
    cases e <;> simp [cleanupAfterPrepare, ih, hasCleanup_append_cleanup]

/-- A `try/finally` whose finaliser is the `cleanupLocation` call leaves
a trace ending in the cleanup event, on success and on failure alike. -/
theorem tryFinallyM_cleanup_trace {α : Type} (body : M α)
    (r : Except PyErr Unit) (s : St) :
    ((tryFinallyM body (extCall Ev.cleanupLocation r)) s).1.trace =
      ((body s).1.trace) ++ [Ev.cleanupLocation] := by
  unfold tryFinallyM extCall
  cases r <;> simp

/-- Binding with a trace-preserving continuation preserves the trace of
the first computation. -/
theorem mBind_trace_eq {α β : Type} (x : M α) (f : α → M β)
    (hf : ∀ a s, ((f a) s).1.trace = s.trace) (s : St) :
    ((mBind x f) s).1.trace = (x s).1.trace := by
  unfold mBind
  rcases hx : x s with ⟨s1, r1⟩
  cases r1 <;> simp [hx, hf]

/-- Evaluating the fetcher-construction step: it never raises and only
updates the installer. -/
theorem mBind_getFetcherM {β : Type} (meter : Option Nat) (k : Fetcher → M β)
    (s : St) :
    mBind (getFetcherM meter) k s =
      k (_get_fetcher s.ins meter).1 { s with ins := (_get_fetcher s.ins meter).2 } := by
  unfold mBind getFetcherM
  rcases h : _get_fetcher s.ins meter with ⟨f, insF⟩
  simp [h]

/-- The trace left by `_prepare` is either empty (no fetch needed) or
ends in the cleanup event. -/
theorem prepare_trace_shape (fs : FS) (conn : Conn) (env : Env)
    (meter : Option Nat) (ins : DistroInstaller) :
    (_prepare fs conn env meter (St.init ins)).1.trace = [] ∨
    ∃ t, (_prepare fs conn env meter (St.init ins)).1.trace =
      t ++ [Ev.cleanupLocation] := by
  unfold _prepare
  by_cases h1 : _get_media_type fs conn ins = MEDIA_CDROM_IMPLIED
  · left
    simp [St.init, h1]
  · by_cases h2 : _get_media_type fs conn ins = MEDIA_CDROM_PATH
    · left
      simp [St.init, h1, h2, mBind, mPure, setCdromPath, MEDIA_CDROM_PATH,
        MEDIA_CDROM_IMPLIED]
    · right
      simp only [St.init, if_neg h1, if_pos h2]
      rw [mBind_trace_eq _ _ (fun a s => rfl)]
      rw [mBind_getFetcherM]
      rw [tryFinallyM_cleanup_trace]
      exact ⟨_, rfl⟩

/-- The trace left by `check_location` is either empty or ends in the
cleanup event. -/
theorem check_location_trace_shape (fs : FS) (conn : Conn) (env : Env)
    (ins : DistroInstaller) :
    (check_location fs conn env (St.init ins)).1.trace = [] ∨
    ∃ t, (check_location fs conn env (St.init ins)).1.trace =
      t ++ [Ev.cleanupLocation] := by
  unfold check_location
  by_cases h : (_get_media_type fs conn ins = MEDIA_CDROM_URL ∨
      _get_media_type fs conn ins = MEDIA_LOCATION_URL)
  · right
    simp only [St.init, h, not_true, if_neg, if_false]
    rw [mBind_trace_eq _ _ (fun a s => rfl)]
    rw [tryFinallyM_cleanup_trace]
    exact ⟨_, rfl⟩
  · left
    simp [St.init, h]

/-- The trace left by `detect_distro` is empty, a single OS-database
lookup, or ends in the cleanup event. -/
theorem detect_distro_trace_shape (fs : FS) (conn : Conn) (env : Env)
    (ins : DistroInstaller) :
    (detect_distro fs conn env (St.init ins)).1.trace = [] ∨
    (detect_distro fs conn env (St.init ins)).1.trace = [Ev.lookupOsByMedia] ∨
    ∃ t, (detect_distro fs conn env (St.init ins)).1.trace =
      t ++ [Ev.cleanupLocation] := by
  unfold detect_distro
  rcases hl : (St.init ins).ins.location with _ | loc
  · left; rfl
  · cases hu : _is_url fs conn loc
    · cases hr : conn.is_remote
      · right; left
        cases he : env.lookupOsByMedia loc <;> simp [hu, hr, extCall, he, St.init]
      · left; simp [hu, hr, St.init]
    · right; right
      simp only [hu, if_true, extCall]
      exact ⟨_, rfl⟩

/-- C4: in `_prepare`, `check_location` and `detect_distro`, once the
fetcher's `prepareLocation` has been invoked, `cleanupLocation` is
invoked before control returns to the caller, on every exit path —
normal return as well as exception propagation. -/
theorem c4_cleanup_on_every_path :
    ∀ fs conn env meter ins,
      cleanupAfterPrepare
        ((_prepare fs conn env meter (St.init ins)).1.trace) = true ∧
      cleanupAfterPrepare
        ((check_location fs conn env (St.init ins)).1.trace) = true ∧
      cleanupAfterPrepare
        ((detect_distro fs conn env (St.init ins)).1.trace) = true := by
  intro fs conn env meter ins
  refine ⟨?_, ?_, ?_⟩
  · rcases prepare_trace_shape fs conn env meter ins with h | ⟨t, h⟩ <;>
      rw [h]
    · rfl
    · exact cleanupAfterPrepare_append_cleanup t
  · rcases check_location_trace_shape fs conn env ins with h | ⟨t, h⟩ <;>
      rw [h]
    · rfl
    · exact cleanupAfterPrepare_append_cleanup t
  · rcases detect_distro_trace_shape fs conn env ins with h | h | ⟨t, h⟩ <;>
      rw [h]
    · rfl
    · rfl
    · exact cleanupAfterPrepare_append_cleanup t
